import Mathlib

/-!
Shallow embedding of `examples/src/bin/orientable_subclass.rs`:
a custom GTK widget subclass (`CustomOrientable`) implementing the
`Orientable` interface.  The widget holds two child labels, a cached
orientation, and an attached `BoxLayout` layout manager; the GObject
property vfuncs (`set_property` / `get_property`), the `constructed`
and `dispose` hooks and the button-click toggle handler are embedded
as explicit state transformers.  Fallible steps (array indexing of
`PROPERTIES`, the `unimplemented` fallback, the two `expect` calls in
`main` / `CustomOrientable::new`) are embedded with `Option` / `Except`.
-/

namespace OrientableSubclass

/-- The two valid variants of `gtk::Orientation` used by the example. -/
inductive Orientation where
  | Horizontal
  | Vertical
deriving DecidableEq

/-- A `gtk::Label` child widget: its text and whether `set_parent` has
attached it to the composite widget (cleared again by `unparent`). -/
structure Label where
  text : String
  has_parent : Bool
deriving DecidableEq

/-- The `gtk::BoxLayout` layout manager attached to the widget in
`class_init` via `set_layout_manager_type::<gtk::BoxLayout>()`. -/
structure BoxLayout where
  orientation : Orientation
  spacing : Nat
deriving DecidableEq

/-- State of one `CustomOrientable` instance: the three fields of the
`imp::CustomOrientable` struct (`first_label`, `second_label`,
`orientation`, each a `RefCell`) together with the layout manager
reachable through `obj.get_layout_manager()`. -/
structure CustomOrientable where
  first_label : Option Label
  second_label : Option Label
  orientation : Orientation
  layout_manager : BoxLayout
deriving DecidableEq

/-- The single-element `PROPERTIES` array: one property named
"orientation" (modelled by its name; the ParamSpec default is
`default_orientation` below). -/
def PROPERTIES : List String := ["orientation"]

/-- Default of the "orientation" ParamSpec:
`gtk::Orientation::Horizontal.to_glib()`. -/
def default_orientation : Orientation := Orientation.Horizontal

/-- `ObjectSubclass::new`: both label slots start as `None` and the
cached orientation starts as `gtk::Orientation::Horizontal`.  The
`BoxLayout` created for the instance starts with GTK defaults
(horizontal, spacing 0). -/
def subclass_new : CustomOrientable :=
  { first_label := none
    second_label := none
    orientation := Orientation.Horizontal
    layout_manager := { orientation := Orientation.Horizontal, spacing := 0 } }

/-- `ObjectImpl::set_property`: indexes `PROPERTIES[id]` (out of bounds
aborts, embedded as `none`), matches on the property name; for
"orientation" it replaces the cached value and forwards the same value
to the layout manager; any other name hits the `unimplemented`
fallback (also `none`). -/
def set_property (s : CustomOrientable) (id : Nat) (value : Orientation) :
    Option CustomOrientable :=
  match PROPERTIES.get? id with
  | none => none
  | some prop =>
    if prop = "orientation" then
      some { s with
              orientation := value
              layout_manager := { s.layout_manager with orientation := value } }
    else
      none

/-- `ObjectImpl::get_property`: indexes `PROPERTIES[id]` (out of bounds
aborts, embedded as `none`); for "orientation" it returns
`self.orientation.borrow().to_value()` — a read-only borrow — so the
returned pair carries the unchanged state; any other name hits the
`unimplemented` fallback. -/
def get_property (s : CustomOrientable) (id : Nat) :
    Option (Orientation × CustomOrientable) :=
  match PROPERTIES.get? id with
  | none => none
  | some prop =>
    if prop = "orientation" then some (s.orientation, s)
    else none

/-- `OrientableExt::set_orientation`: the GObject machinery dispatches a
write of the registered "orientation" property (id 0) to
`set_property`, always taking its "orientation" branch. -/
def set_orientation (s : CustomOrientable) (v : Orientation) : CustomOrientable :=
  { s with
      orientation := v
      layout_manager := { s.layout_manager with orientation := v } }

/-- Dispatch agreement: `set_property` at the registered id 0 is exactly
`set_orientation`. -/
theorem set_property_dispatch (s : CustomOrientable) (v : Orientation) :
    set_property s 0 v = some (set_orientation s v) := rfl

/-- `OrientableExt::get_orientation`: dispatches a read of the
registered "orientation" property (id 0) to `get_property`. -/
def get_orientation (s : CustomOrientable) : Orientation := s.orientation

/-- Dispatch agreement: `get_property` at the registered id 0 returns
exactly `get_orientation` and the unchanged state. -/
theorem get_property_dispatch (s : CustomOrientable) :
    get_property s 0 = some (get_orientation s, s) := rfl

/-- `ObjectImpl::constructed`: creates the "Hello" and "World!" labels,
sets the layout manager spacing to 6, parents both labels under the
widget and stores them in the two slots. -/
def constructed (s : CustomOrientable) : CustomOrientable :=
  let first_label : Label := { text := "Hello", has_parent := true }
  let second_label : Label := { text := "World!", has_parent := true }
  { s with
      layout_manager := { s.layout_manager with spacing := 6 }
      first_label := some first_label
      second_label := some second_label }

/-- `ObjectImpl::dispose`: for each slot, `if let Some(child) =
slot.borrow_mut().take() { child.unparent() }` — a child already taken
is simply skipped. -/
def dispose (s : CustomOrientable) : CustomOrientable :=
  let s1 :=
    match s.first_label with
    | some _child => { s with first_label := none }
    | none => s
  match s1.second_label with
  | some _child => { s1 with second_label := none }
  | none => s1

/-- Full `g_object_new` construction sequence for `CustomOrientable`:
instance init (`subclass_new`), then the CONSTRUCT-flagged
"orientation" property is written with its ParamSpec default, then the
`constructed` hook runs. -/
def construct : CustomOrientable :=
  constructed (set_orientation subclass_new default_orientation)

/-- Number of children a slot contributes to the widget tree. -/
def parentedCount (o : Option Label) : Nat :=
  match o with
  | some l => if l.has_parent then 1 else 0
  | none => 0

/-- Number of child widgets currently parented under the widget. -/
def childCount (s : CustomOrientable) : Nat :=
  parentedCount s.first_label + parentedCount s.second_label

/-- The `connect_clicked` handler of the "Switch orientation" button:
flips Horizontal to Vertical and Vertical to Horizontal via
`get_orientation` / `set_orientation`. -/
def toggle (s : CustomOrientable) : CustomOrientable :=
  match get_orientation s with
  | Orientation.Horizontal => set_orientation s Orientation.Vertical
  | Orientation.Vertical => set_orientation s Orientation.Horizontal

/-- `Option::expect(msg)`: the value on `Some`, a fatal abort carrying
the diagnostic message on `None`. -/
def expect {α : Type} (o : Option α) (msg : String) : Except String α :=
  match o with
  | some a => Except.ok a
  | none => Except.error msg

/-- The `gtk::Application` object created in `main` (identified by its
reverse-domain application id). -/
structure Application where
  application_id : Option String
deriving DecidableEq

/-- First statement of `main`: `gtk::Application::new(..).expect(
"Initialization failed...")`, taking the toolkit result as input. -/
def main_init (r : Option Application) : Except String Application :=
  expect r "Initialization failed..."

/-- `CustomOrientable::new`: `glib::Object::new(&[]).expect("Failed to
create CustomOrientable")`, taking the toolkit result as input. -/
def CustomOrientable.new (r : Option CustomOrientable) :
    Except String CustomOrientable :=
  expect r "Failed to create CustomOrientable"

/-- Two clicks restore the cached orientation. -/
theorem toggle_toggle_orientation (s : CustomOrientable) :
    (toggle (toggle s)).orientation = s.orientation := by
  cases h : s.orientation <;>
    simp [toggle, get_orientation, set_orientation, h]

/-- C1: for every valid orientation value v and every widget state,
setting the orientation to v and then reading it back returns v; at
the property-vfunc level, `set_property` at the registered id followed
by `get_property` returns v. -/
theorem C1_set_then_get (s : CustomOrientable) (v : Orientation) :
    get_orientation (set_orientation s v) = v
    ∧ set_property s 0 v = some (set_orientation s v)
    ∧ get_property (set_orientation s v) 0 = some (v, set_orientation s v) := by
  exact ⟨rfl, rfl, rfl⟩

/-- C2: after any write of the orientation property, the cached
orientation and the orientation held by the attached box layout
manager agree. -/
theorem C2_cache_layout_agree (s : CustomOrientable) (v : Orientation) :
    (set_orientation s v).orientation
      = (set_orientation s v).layout_manager.orientation := rfl

/-- C3: immediately after construction, with no intervening set call,
reading the orientation returns the default direction, Horizontal. -/
theorem C3_default_after_construct :
    get_orientation construct = Orientation.Horizontal := rfl

/-- C4: after the `constructed` hook completes, exactly two child
widgets (the two labels) are parented under the widget. -/
theorem C4_two_children (s : CustomOrientable) :
    childCount (constructed s) = 2 := rfl

/-- C5: after `dispose` runs, zero children remain parented under the
widget, and a second `dispose` is a no-op (each already-released child
is skipped). -/
theorem C5_dispose_idempotent (s : CustomOrientable) :
    childCount (dispose s) = 0 ∧ dispose (dispose s) = dispose s := by
  refine ⟨?_, ?_⟩ <;>
    cases h1 : s.first_label <;> cases h2 : s.second_label <;>
      simp [dispose, childCount, parentedCount, h1, h2]

/-- C6: from any widget state, applying the button-click toggle an even
number of times returns the orientation property to its original
value. -/
theorem C6_even_toggles (s : CustomOrientable) (n : Nat) :
    (toggle^[2 * n] s).orientation = s.orientation := by
  induction n generalizing s with
  | zero => rfl
  | succ n ih =>
      have h2 : 2 * (n + 1) = 2 * n + 2 := by ring
      rw [h2, Function.iterate_add_apply]
      rw [ih]
      exact toggle_toggle_orientation s

/-- C7: exactly two fatal failure points: toolkit initialization
failure aborts with "Initialization failed...", widget instantiation
failure aborts with "Failed to create CustomOrientable"; both succeed
on a present value, and the property operations at the registered id
never fail. -/
theorem C7_two_failure_points :
    main_init none = Except.error "Initialization failed..."
    ∧ CustomOrientable.new none
        = Except.error "Failed to create CustomOrientable"
    ∧ (∀ a : Application, main_init (some a) = Except.ok a)
    ∧ (∀ s : CustomOrientable, CustomOrientable.new (some s) = Except.ok s)
    ∧ (∀ (s : CustomOrientable) (v : Orientation),
        (set_property s 0 v).isSome = true)
    ∧ (∀ s : CustomOrientable, (get_property s 0).isSome = true) := by
  exact ⟨rfl, rfl, fun _ => rfl, fun _ => rfl, fun _ _ => rfl, fun _ => rfl⟩

/-- C8: `get_property` at the orientation id returns the cached value
and has no side effect: the cached orientation, both child slots and
the layout manager orientation are unchanged. -/
theorem C8_get_no_side_effects (s : CustomOrientable)
    (out : Orientation × CustomOrientable)
    (h : get_property s 0 = some out) :
    out.1 = s.orientation
    ∧ out.2.orientation = s.orientation
    ∧ out.2.first_label = s.first_label
    ∧ out.2.second_label = s.second_label
    ∧ out.2.layout_manager.orientation = s.layout_manager.orientation := by
  have hout : out = (s.orientation, s) := by
    have := h.symm.trans (get_property_dispatch s)
    exact (Option.some.injEq _ _ ▸ this).symm ▸ rfl
  subst hout
  exact ⟨rfl, rfl, rfl, rfl, rfl⟩

/-- C8 witness: the frame property at the freshly constructed widget. -/
theorem C8_get_no_side_effects_witness :
    (Orientation.Horizontal, construct).1 = construct.orientation
    ∧ (Orientation.Horizontal, construct).2.orientation
        = construct.orientation
    ∧ (Orientation.Horizontal, construct).2.first_label
        = construct.first_label
    ∧ (Orientation.Horizontal, construct).2.second_label
        = construct.second_label
    ∧ (Orientation.Horizontal, construct).2.layout_manager.orientation
        = construct.layout_manager.orientation :=
  C8_get_no_side_effects construct (Orientation.Horizontal, construct) rfl

/-- C9: for every property id other than the single registered
"orientation" property (id 0), both `set_property` and `get_property`
abort (out-of-bounds indexing of the one-element `PROPERTIES` array);
they never silently ignore an unknown id. -/
theorem C9_unknown_property_id (s : CustomOrientable) (v : Orientation)
    (id : Nat) (h : id ≠ 0) :
    set_property s id v = none ∧ get_property s id = none := by
  match id, h with
  | n + 1, _ =>
      exact ⟨rfl, rfl⟩

/-- C9 witness: property id 1 aborts on the constructed widget. -/
theorem C9_unknown_property_id_witness :
    set_property construct 1 Orientation.Horizontal = none
    ∧ get_property construct 1 = none :=
  C9_unknown_property_id construct Orientation.Horizontal 1 (by decide)

/-- C10: `dispose` leaves the cached orientation (and the layout
manager) unchanged, clearing only the two child slots; the same holds
across a repeated `dispose`. -/
theorem C10_dispose_frame (s : CustomOrientable) :
    (dispose s).orientation = s.orientation
    ∧ (dispose s).layout_manager = s.layout_manager
    ∧ (dispose s).first_label = none
    ∧ (dispose s).second_label = none
    ∧ (dispose (dispose s)).orientation = s.orientation := by
  cases h1 : s.first_label <;> cases h2 : s.second_label <;>
    simp [dispose, h1, h2]

end OrientableSubclass
